import Mathlib

/-!
Shallow embedding of the surveyjs question model:
- `src/src/question.ts` (class `Question`): value storage, validation
  (`checkForErrors` / `hasErrors`), the value-setter re-entrancy guard, and
  `runCondition` with its lazily constructed condition runner.
- `src/unnamed/part_000` (class `QuestionMatrixDynamicModel`): `rowCount`
  clamping, `addRow` / `removeRow`, value normalization `createNewValue`,
  emptiness collapse `deleteRowValue`, and `generateRows`.

External collaborators (data provider, `ConditionRunner`, `ValidatorRunner`,
`Base.isValueEmpty`) are modelled from the spec as abstract parameters or
fields, per its section 6; everything else is transcribed from the source.
-/

namespace Survey

/-! ### Dynamic matrix model (`src/unnamed/part_000`) -/

/-- Row-data object: a JS object modelled as a list of key/value pairs.
The empty object `\x7b\x7d` is `[]`; `Object.keys(o).length` is `o.length`. -/
abbrev Obj := List (String × Int)

/-- State of a `QuestionMatrixDynamicModel`: the monotone `rowCounter`, the
`rowCountValue` field, and the backing `value`.  The backing value lives in
the `Question` provider/fallback slot; modelled from the spec as a direct
field holding `none` for null/undefined or `some` array of row objects
(`if (this.value)` is the `Option.isSome` test: a JS array, even empty,
is truthy). -/
structure MState where
  rowCounter : Nat
  rowCountValue : Int
  value : Option (List Obj)
deriving Repr, DecidableEq

/-- Source: `static MaxRowCount = 100`. -/
def MaxRowCount : Int := 100

/-- Source: the `rowCount` setter — out-of-range assignments return without
mutating `rowCountValue`. -/
def rowCount_set (val : Int) (s : MState) : MState :=
  if val < 0 ∨ MaxRowCount < val then s
  else { s with rowCountValue := val }

/-- Source: `addRow() { this.rowCount++; }` — goes through the setter. -/
def addRow (s : MState) : MState :=
  rowCount_set (s.rowCountValue + 1) s

/-- JS `arr.splice(start)` with a single argument: removes every element from
the actual start index (negative `start` counts from the end, clamped at 0;
positive `start` is clamped at the length) to the end, leaving the prefix. -/
def jsSpliceDrop (arr : List Obj) (start : Int) : List Obj :=
  let actual : Int :=
    if start < 0 then max ((arr.length : Int) + start) 0
    else min start (arr.length : Int)
  arr.take actual.toNat

/-- Source: `createNewValue(curValue)` — start from `curValue` or `[]`; if the
length exceeds `rowCount`, `result.splice(this.rowCount - 1)` (note: drops
from position `rowCount - 1`, not `rowCount`); then push empty objects until
the length reaches `rowCount`. -/
def createNewValue (curValue : Option (List Obj)) (rowCount : Int) : List Obj :=
  let result := curValue.getD []
  let result :=
    if rowCount < (result.length : Int) then jsSpliceDrop result (rowCount - 1)
    else result
  result ++ List.replicate (rowCount - (result.length : Int)).toNat ([] : Obj)

/-- Source: `deleteRowValue(newValue, row)` — when every entry is an empty
object the whole value collapses to null. -/
def deleteRowValue (newValue : List Obj) : Option (List Obj) :=
  if newValue.all (fun o => o.length == 0) then none else some newValue

/-- Source: `removeRow(index)` — no-op when `index` is outside
`[0, rowCount)`; when a backing value is present, normalize it, splice out
the entry at `index`, apply the emptiness collapse and store the result;
finally `this.rowCount--` through the setter. -/
def removeRow (index : Int) (s : MState) : MState :=
  if index < 0 ∨ s.rowCountValue ≤ index then s
  else
    let s1 :=
      match s.value with
      | none => s
      | some cur =>
        let val := createNewValue (some cur) s.rowCountValue
        let val := val.eraseIdx index.toNat
        { s with value := deleteRowValue val }
    rowCount_set (s1.rowCountValue - 1) s1

/-- A `MatrixDynamicRowModel`: `index` is the stamp taken from `rowCounter`
at creation time, `value` the row value handed to the constructor. -/
structure RowModel where
  index : Nat
  value : Option Obj
deriving Repr, DecidableEq

/-- Source: `get rowName() { return "row" + this.index; }`. -/
def rowName (r : RowModel) : String :=
  "row" ++ toString r.index

/-- Source: `getRowValueByIndex(questionValue, index)` — the entry at `index`
when `0 <= index < length`, otherwise null. -/
def getRowValueByIndex (questionValue : List Obj) (index : Int) : Option Obj :=
  if 0 ≤ index ∧ index < (questionValue.length : Int) then
    questionValue.get? index.toNat
  else none

/-- Source: `generateRows()` — empty when `rowCount === 0`; otherwise
normalize the backing value and build one row model per position `i`, each
stamped with `this.rowCounter++` (the loop is rendered as a map over
`List.range`, row `i` receiving stamp `rowCounter + i`).  `createNewValue`
mutates the backing array in place, so when a value is present the stored
value becomes the normalized array; when it is null it stays null. -/
def generateRows (s : MState) : List RowModel × MState :=
  if s.rowCountValue = 0 then ([], s)
  else
    let val := createNewValue s.value s.rowCountValue
    let n := s.rowCountValue.toNat
    let rows := (List.range n).map (fun i =>
      { index := s.rowCounter + i, value := getRowValueByIndex val (i : Int) })
    ( rows,
      { s with
          rowCounter := s.rowCounter + n,
          value := match s.value with | some _ => some val | none => none } )

/-- A freshly constructed `QuestionMatrixDynamicModel`: `rowCounter = 0`,
`rowCountValue = 2` (field initializer), no backing value yet. -/
def initialMatrix : MState :=
  { rowCounter := 0, rowCountValue := 2, value := none }

/-! ### Question validation (`src/src/question.ts`, `checkForErrors`) -/

/-- Validation errors: the required error produced by `onCheckForErrors`
(an `AnswerRequiredError` carrying `requiredErrorText`), and opaque errors
produced by the external validator chain or the container hook. -/
inductive SurveyError where
  | required (text : String)
  | validator (text : String)
  | custom (text : String)
deriving Repr, DecidableEq

/-- Inputs of one `checkForErrors` pass.  `isEmpty` is the result of the
external `Base.isValueEmpty(this.value)`; `validatorResult` the result of
`new ValidatorRunner().run(this)` (external chain, at most one error per
spec section 6); `surveyValidationResult` the result of
`fireSurveyValidation()` (the `validateValueCallback` or
`survey.validateQuestion`, consulted only when a survey is attached). -/
structure ErrCheckInput where
  isRequired : Bool
  isEmpty : Bool
  requiredErrorText : String
  validatorResult : Option SurveyError
  hasSurvey : Bool
  surveyValidationResult : Option SurveyError
deriving Repr, DecidableEq

/-- Source: `checkForErrors` — clear the list, run `onCheckForErrors`
(push a required error when `isRequired && isEmpty`), then the validator
chain when no error yet and the value is non-empty, then the survey hook
when attached and still no error.  The `errorsChangedCallback` firing is a
UI notification and is not part of the returned list. -/
def checkForErrors (q : ErrCheckInput) : List SurveyError :=
  let errors : List SurveyError := []
  let errors :=
    if q.isRequired ∧ q.isEmpty then
      errors ++ [SurveyError.required q.requiredErrorText]
    else errors
  let errors :=
    if errors.length = 0 ∧ ¬ q.isEmpty then
      match q.validatorResult with
      | some e => errors ++ [e]
      | none => errors
    else errors
  let errors :=
    if q.hasSurvey ∧ errors.length = 0 then
      match q.surveyValidationResult with
      | some e => errors ++ [e]
      | none => errors
    else errors
  errors

/-- Source: `hasErrors()` — run `checkForErrors` and report whether the
rebuilt error list is non-empty. -/
def hasErrors (q : ErrCheckInput) : Bool :=
  decide (0 < (checkForErrors q).length)

/-! ### Value setter re-entrancy guard (`src/src/question.ts`) -/

/-- State touched by the `value` setter: the stored raw value (the
provider/fallback slot, modelled from the spec as one field), the two guard
flags, and `fires`, counting invocations of `valueChangedCallback`
(`fireCallback` is the base-class synchronous call of the handler when
present, modelled from the spec). -/
structure VState where
  stored : Int
  isvalueChangedCallbackFiring : Bool
  isValueChangedInSurvey : Bool
  fires : Nat
deriving Repr, DecidableEq

/-- Source: `setNewValueInData` — skip the store when the update originated
from the survey; `valueToData` is the identity hook. -/
def setNewValueInData (newValue : Int) (s : VState) : VState :=
  if s.isValueChangedInSurvey then s else { s with stored := newValue }

/-- Source: `setNewValue` — store, then `onValueChanged()` (default no-op). -/
def setNewValue (newValue : Int) (s : VState) : VState :=
  setNewValueInData newValue s

/-- Source: the `value` setter — `setNewValue`, then, unless the guard flag
is up, raise it, fire `valueChangedCallback` (counted in `fires`, the
handler `cb` then runs on the state), and lower it. -/
def value_set (cb : VState → VState) (newValue : Int) (s : VState) : VState :=
  let s1 := setNewValue newValue s
  if s1.isvalueChangedCallbackFiring then s1
  else
    let s2 := { s1 with isvalueChangedCallbackFiring := true }
    let s3 := cb { s2 with fires := s2.fires + 1 }
    { s3 with isvalueChangedCallbackFiring := false }

/-- Handlers built from re-entrant calls into the `value` setter: the empty
handler, sequencing, and a nested `value` assignment whose own handler is
again such a program. -/
inductive Reenters : (VState → VState) → Prop where
  | nop : Reenters fun s => s
  | comp {f g : VState → VState} :
      Reenters f → Reenters g → Reenters fun s => g (f s)
  | set {cb : VState → VState} (v : Int) :
      Reenters cb → Reenters fun s => value_set cb v s

/-! ### Conditional enabling (`src/src/question.ts`, `runCondition`) -/

/-- Values mapping handed to `runCondition` (a `HashTable` of answers). -/
abbrev HashValues := List (String × Int)

/-- Modelled from the spec: `ConditionRunner` (external collaborator,
section 6) is constructed from an expression string and keeps a mutable
`expression` field.  `initialExpression` records the constructor argument
and is never written afterwards, making "constructed once, expression
mutated thereafter" observable. -/
structure ConditionRunner where
  initialExpression : String
  expression : String
deriving Repr, DecidableEq

/-- Modelled from the spec: `runner.run(values)` evaluates the current
`expression` against `values`; the evaluation semantics `evalExpr` is an
abstract parameter. -/
def ConditionRunner.run (evalExpr : String → HashValues → Bool)
    (c : ConditionRunner) (values : HashValues) : Bool :=
  evalExpr c.expression values

/-- `Question` fields touched by `runCondition`. -/
structure CondState where
  enableIf : String
  conditionEnabelRunner : Option ConditionRunner
  readOnlyValue : Bool
deriving Repr, DecidableEq

/-- Source: `runCondition(values)` — `super.runCondition` handles the base
visibility condition only (external, modelled from the spec as a no-op on
these fields); then return when `enableIf` is empty (falsy); else construct
the runner once if absent, refresh its `expression` from `enableIf`, run it
and set `readOnly` to the negated result (the `readOnly` setter's
change-notification callback is a UI effect outside this state). -/
def runCondition (evalExpr : String → HashValues → Bool)
    (values : HashValues) (s : CondState) : CondState :=
  if s.enableIf = "" then s
  else
    let runner :=
      match s.conditionEnabelRunner with
      | none => ConditionRunner.mk s.enableIf s.enableIf
      | some r => r
    let runner := { runner with expression := s.enableIf }
    { s with
        conditionEnabelRunner := some runner,
        readOnlyValue := ! ConditionRunner.run evalExpr runner values }

/-! ### Helper lemmas -/

theorem setNewValue_flag (v : Int) (s : VState) :
    (setNewValue v s).isvalueChangedCallbackFiring
      = s.isvalueChangedCallbackFiring := by
  unfold setNewValue setNewValueInData
  split <;> rfl

theorem setNewValue_fires (v : Int) (s : VState) :
    (setNewValue v s).fires = s.fires := by
  unfold setNewValue setNewValueInData
  split <;> rfl

theorem reenters_guarded {f : VState → VState} (hf : Reenters f) :
    ∀ s : VState, s.isvalueChangedCallbackFiring = true →
      (f s).fires = s.fires ∧ (f s).isvalueChangedCallbackFiring = true := by
  induction hf with
  | nop =>
    intro s h
    exact ⟨rfl, h⟩
  | comp hf hg ihf ihg =>
    intro s h
    obtain ⟨h1, h2⟩ := ihf s h
    obtain ⟨h3, h4⟩ := ihg _ h2
    exact ⟨h3.trans h1, h4⟩
  | @set cb v hcb ih =>
    intro s h
    have hflag : (setNewValue v s).isvalueChangedCallbackFiring = true := by
      rw [setNewValue_flag]; exact h
    show (value_set cb v s).fires = s.fires ∧
      (value_set cb v s).isvalueChangedCallbackFiring = true
    simp only [value_set]
    rw [if_pos hflag, setNewValue_fires]
    exact ⟨rfl, hflag⟩

theorem createNewValue_length (cv : Option (List Obj)) (rc : Int)
    (h : 1 ≤ rc) : ((createNewValue cv rc).length : Int) = rc := by
  simp only [createNewValue, jsSpliceDrop]
  split_ifs with h1 h2 <;>
    simp [List.length_append, List.length_take, List.length_replicate] <;>
    omega

theorem createNewValue_exact (v : List Obj) (rc : Int)
    (h : (v.length : Int) = rc) : createNewValue (some v) rc = v := by
  simp only [createNewValue, Option.getD]
  rw [if_neg (by omega)]
  simp [h]

theorem generateRows_eq (s : MState) (h : s.rowCountValue ≠ 0) :
    generateRows s
      = ((List.range s.rowCountValue.toNat).map (fun i =>
            { index := s.rowCounter + i,
              value := getRowValueByIndex
                (createNewValue s.value s.rowCountValue) (i : Int) }),
         { s with
             rowCounter := s.rowCounter + s.rowCountValue.toNat,
             value := match s.value with
                      | some _ => some (createNewValue s.value s.rowCountValue)
                      | none => none }) := by
  unfold generateRows
  rw [if_neg h]

/-! ### Claim theorems -/

/-- C1: evaluating `createNewValue` at rowCount 2 on the three-entry value
`[ \x7b a: 1 \x7d, \x7b b: 2 \x7d, \x7b c: 3 \x7d ]` shows the off-by-one of
`result.splice(this.rowCount - 1)`: the entry at position `rowCount - 1` is
dropped along with the tail and replaced by a padded empty object, so the
result is `[ \x7b a: 1 \x7d, \x7b\x7d ]` instead of the first two entries
that the claim (and the spec's own normalization wording) require. -/
theorem createNewValue_off_by_one :
    createNewValue (some [[("a", 1)], [("b", 2)], [("c", 3)]]) 2
      = [[("a", 1)], ([] : Obj)] ∧
    createNewValue (some [[("a", 1)], [("b", 2)], [("c", 3)]]) 2
      ≠ [[("a", 1)], [("b", 2)]] := by
  constructor <;> decide

/-- C2: for every question with `isRequired = true` and an empty value,
`hasErrors()` returns true and the rebuilt error list is exactly the one
required error carrying `requiredErrorText`; the validator chain and the
container hook, whatever they would return, contribute nothing. -/
theorem required_empty_invariant (q : ErrCheckInput)
    (hr : q.isRequired = true) (he : q.isEmpty = true) :
    hasErrors q = true ∧
    checkForErrors q = [SurveyError.required q.requiredErrorText] := by
  have hc : checkForErrors q = [SurveyError.required q.requiredErrorText] := by
    simp [checkForErrors, hr, he]
  exact ⟨by simp [hasErrors, hc], hc⟩

theorem required_empty_invariant_witness :
    hasErrors
      { isRequired := true, isEmpty := true, requiredErrorText := "req",
        validatorResult := some (SurveyError.validator "v"), hasSurvey := true,
        surveyValidationResult := some (SurveyError.custom "c") } = true ∧
    checkForErrors
      { isRequired := true, isEmpty := true, requiredErrorText := "req",
        validatorResult := some (SurveyError.validator "v"), hasSurvey := true,
        surveyValidationResult := some (SurveyError.custom "c") }
      = [SurveyError.required "req"] :=
  required_empty_invariant
    { isRequired := true, isEmpty := true, requiredErrorText := "req",
      validatorResult := some (SurveyError.validator "v"), hasSurvey := true,
      surveyValidationResult := some (SurveyError.custom "c") } rfl rfl

/-- C3: when the required check passes (value non-empty) and the validator
chain yields an error, `checkForErrors` leaves exactly that one error; the
container-level hook is not invoked (the outcome is the same whatever
`surveyValidationResult` holds); and in general every pass produces at most
one error — required, validator, container tried in that order with the
first match short-circuiting the rest. -/
theorem validator_short_circuit (q : ErrCheckInput) (e : SurveyError)
    (he : q.isEmpty = false) (hv : q.validatorResult = some e) :
    checkForErrors q = [e] ∧
    (∀ h : Option SurveyError,
      checkForErrors { q with surveyValidationResult := h } = [e]) ∧
    (∀ r : ErrCheckInput, (checkForErrors r).length ≤ 1) := by
  refine ⟨by simp [checkForErrors, he, hv], fun h => by simp [checkForErrors, he, hv], fun r => ?_⟩
  rcases hr : r.validatorResult with - | e1 <;>
    rcases hs : r.surveyValidationResult with - | e2 <;>
    rcases hq : r.isRequired <;> rcases hm : r.isEmpty <;>
    rcases hh : r.hasSurvey <;>
    simp [checkForErrors, hr, hs, hq, hm, hh]

theorem validator_short_circuit_witness :
    checkForErrors
      { isRequired := true, isEmpty := false, requiredErrorText := "req",
        validatorResult := some (SurveyError.validator "v"), hasSurvey := true,
        surveyValidationResult := some (SurveyError.custom "c") }
      = [SurveyError.validator "v"] ∧
    checkForErrors
      { isRequired := true, isEmpty := false, requiredErrorText := "req",
        validatorResult := some (SurveyError.validator "v"), hasSurvey := true,
        surveyValidationResult := some (SurveyError.custom "d") }
      = [SurveyError.validator "v"] ∧
    (checkForErrors
      { isRequired := true, isEmpty := false, requiredErrorText := "req",
        validatorResult := some (SurveyError.validator "v"), hasSurvey := true,
        surveyValidationResult := some (SurveyError.custom "c") }).length ≤ 1 := by
  have h := validator_short_circuit
    { isRequired := true, isEmpty := false, requiredErrorText := "req",
      validatorResult := some (SurveyError.validator "v"), hasSurvey := true,
      surveyValidationResult := some (SurveyError.custom "c") }
    (SurveyError.validator "v") rfl rfl
  exact ⟨h.1, h.2.1 (some (SurveyError.custom "d")), h.2.2 _⟩

/-- C5: assigning any `v < 0` or `v > 100` to `rowCount` leaves the state
untouched; any `v` in `[0, 100]` is stored; and `addRow()` at
`rowCount = 100` (`MaxRowCount`) is a no-op. -/
theorem rowCount_clamp (s : MState) (v : Int) :
    ((v < 0 ∨ 100 < v) → rowCount_set v s = s) ∧
    (0 ≤ v → v ≤ 100 → (rowCount_set v s).rowCountValue = v) ∧
    (s.rowCountValue = 100 → addRow s = s) := by
  refine ⟨fun h => ?_, fun h1 h2 => ?_, fun h => ?_⟩
  · simp only [rowCount_set, MaxRowCount]
    rw [if_pos h]
  · simp only [rowCount_set, MaxRowCount]
    rw [if_neg (by omega)]
  · simp [addRow, rowCount_set, MaxRowCount, h]

theorem rowCount_clamp_witness :
    rowCount_set (-1) { rowCounter := 0, rowCountValue := 2, value := none }
      = { rowCounter := 0, rowCountValue := 2, value := none } ∧
    rowCount_set 101 { rowCounter := 0, rowCountValue := 2, value := none }
      = { rowCounter := 0, rowCountValue := 2, value := none } ∧
    (rowCount_set 5 { rowCounter := 0, rowCountValue := 2, value := none }).rowCountValue = 5 ∧
    addRow { rowCounter := 0, rowCountValue := 100, value := none }
      = { rowCounter := 0, rowCountValue := 100, value := none } :=
  ⟨(rowCount_clamp { rowCounter := 0, rowCountValue := 2, value := none } (-1)).1
      (Or.inl (by decide)),
   (rowCount_clamp { rowCounter := 0, rowCountValue := 2, value := none } 101).1
      (Or.inr (by decide)),
   (rowCount_clamp { rowCounter := 0, rowCountValue := 2, value := none } 5).2.1
      (by decide) (by decide),
   (rowCount_clamp { rowCounter := 0, rowCountValue := 100, value := none } 0).2.2 rfl⟩

/-- C6: `removeRow` is a no-op whenever `index` is outside `[0, rowCount)`;
and on a question with `rowCount = 2` and backing value `[ \x7b\x7d, \x7b\x7d ]`
(any row counter), `removeRow 0` collapses the value to null — every entry of
the post-removal normalized array being an empty object — and decrements
`rowCount` to 1. -/
theorem removeRow_collapses_empty (s : MState) (index : Int) (c : Nat) :
    ((index < 0 ∨ s.rowCountValue ≤ index) → removeRow index s = s) ∧
    (removeRow 0 { rowCounter := c, rowCountValue := 2, value := some [[], []] }).value
      = none ∧
    (removeRow 0 { rowCounter := c, rowCountValue := 2, value := some [[], []] }).rowCountValue
      = 1 := by
  refine ⟨fun h => ?_, ?_, ?_⟩
  · unfold removeRow
    rw [if_pos h]
  · rfl
  · rfl

theorem removeRow_collapses_empty_witness :
    removeRow (-1) { rowCounter := 0, rowCountValue := 2, value := none }
      = { rowCounter := 0, rowCountValue := 2, value := none } ∧
    (removeRow 0 { rowCounter := 0, rowCountValue := 2, value := some [[], []] }).value
      = none ∧
    (removeRow 0 { rowCounter := 0, rowCountValue := 2, value := some [[], []] }).rowCountValue
      = 1 :=
  ⟨(removeRow_collapses_empty { rowCounter := 0, rowCountValue := 2, value := none }
      (-1) 0).1 (Or.inl (by decide)),
   (removeRow_collapses_empty { rowCounter := 0, rowCountValue := 2, value := none }
      (-1) 0).2.1,
   (removeRow_collapses_empty { rowCounter := 0, rowCountValue := 2, value := none }
      (-1) 0).2.2⟩

/-- C9: when the backing value is absent (`none`) and `index` lies in
`[0, rowCount)` (with `rowCount` within its invariant range `<= MaxRowCount`),
`removeRow` only decrements `rowCount`: the value is never materialized and
stays absent, and no other field changes. -/
theorem removeRow_value_absent (s : MState) (index : Int)
    (h0 : 0 ≤ index) (h1 : index < s.rowCountValue)
    (h2 : s.rowCountValue ≤ MaxRowCount) (hv : s.value = none) :
    removeRow index s = { s with rowCountValue := s.rowCountValue - 1 } := by
  unfold MaxRowCount at h2
  unfold removeRow
  rw [if_neg (by omega)]
  simp only [hv]
  unfold rowCount_set MaxRowCount
  rw [if_neg (by omega)]
  rw [hv]

theorem removeRow_value_absent_witness :
    removeRow 1 { rowCounter := 3, rowCountValue := 2, value := none }
      = { rowCounter := 3, rowCountValue := 1, value := none } :=
  removeRow_value_absent { rowCounter := 3, rowCountValue := 2, value := none }
    1 (by decide) (by decide) (by decide) rfl

/-- C10: a freshly constructed dynamic matrix question starts with
`rowCount = 2` (the `rowCountValue` field initializer), so its first
`generateRows()` call already yields two row models. -/
theorem initialMatrix_two_rows :
    initialMatrix.rowCountValue = 2 ∧
    (generateRows initialMatrix).1.length = 2 := by
  constructor <;> rfl

/-- C7: when `enableIf` is empty, `runCondition` returns the state unchanged
— in particular `readOnly` is not reset; when `enableIf` is non-empty, the
condition runner is constructed only on first use (`initialExpression`, the
constructor argument, is preserved by later calls), its `expression` is
refreshed from the current `enableIf`, and `readOnly` becomes the negation
of evaluating that expression against `values`. -/
theorem runCondition_enableIf (evalExpr : String → HashValues → Bool)
    (values : HashValues) (s : CondState) :
    (s.enableIf = "" → runCondition evalExpr values s = s) ∧
    (s.enableIf ≠ "" →
      (runCondition evalExpr values s).readOnlyValue
          = ! evalExpr s.enableIf values ∧
      (runCondition evalExpr values s).enableIf = s.enableIf ∧
      (runCondition evalExpr values s).conditionEnabelRunner
          = some { initialExpression :=
                     match s.conditionEnabelRunner with
                     | none => s.enableIf
                     | some r => r.initialExpression,
                   expression := s.enableIf }) := by
  refine ⟨fun h => ?_, fun h => ?_⟩
  · unfold runCondition
    rw [if_pos h]
  · rcases hr : s.conditionEnabelRunner with - | r <;>
      simp [runCondition, ConditionRunner.run, h, hr]

theorem runCondition_enableIf_witness :
    runCondition (fun e _ => e == "x") []
        { enableIf := "", conditionEnabelRunner := some ⟨"old", "old"⟩,
          readOnlyValue := true }
      = { enableIf := "", conditionEnabelRunner := some ⟨"old", "old"⟩,
          readOnlyValue := true } ∧
    (runCondition (fun e _ => e == "x") []
        { enableIf := "x", conditionEnabelRunner := none,
          readOnlyValue := true }).readOnlyValue = false ∧
    (runCondition (fun e _ => e == "x") []
        { enableIf := "x", conditionEnabelRunner := some ⟨"old", "old"⟩,
          readOnlyValue := true }).conditionEnabelRunner
      = some ⟨"old", "x"⟩ := by
  refine ⟨(runCondition_enableIf (fun e _ => e == "x") []
      { enableIf := "", conditionEnabelRunner := some ⟨"old", "old"⟩,
        readOnlyValue := true }).1 rfl, ?_, ?_⟩
  · have h := (runCondition_enableIf (fun e _ => e == "x") []
      { enableIf := "x", conditionEnabelRunner := none,
        readOnlyValue := true }).2 (by decide)
    simpa using h.1
  · have h := (runCondition_enableIf (fun e _ => e == "x") []
      { enableIf := "x", conditionEnabelRunner := some ⟨"old", "old"⟩,
        readOnlyValue := true }).2 (by decide)
    simpa using h.2.2

/-- C4: an outer `value` assignment from a quiescent state fires the
value-changed notification exactly once — even when the handler is itself a
program of re-entrant `value` assignments — and lowers the guard flag again:
the re-entrancy flag suppresses every inner re-firing for the duration of
the outer call. -/
theorem value_set_fires_once (cb : VState → VState) (v : Int) (s : VState)
    (hcb : Reenters cb) (h : s.isvalueChangedCallbackFiring = false) :
    (value_set cb v s).fires = s.fires + 1 ∧
    (value_set cb v s).isvalueChangedCallbackFiring = false := by
  have hfl : (setNewValue v s).isvalueChangedCallbackFiring = false := by
    rw [setNewValue_flag]; exact h
  simp only [value_set]
  rw [if_neg (by simp [hfl])]
  refine ⟨?_, rfl⟩
  have hg := reenters_guarded hcb
    { setNewValue v s with
        isvalueChangedCallbackFiring := true,
        fires := (setNewValue v s).fires + 1 } rfl
  calc ({ cb { setNewValue v s with
            isvalueChangedCallbackFiring := true,
            fires := (setNewValue v s).fires + 1 } with
          isvalueChangedCallbackFiring := false }).fires
      = (cb { setNewValue v s with
            isvalueChangedCallbackFiring := true,
            fires := (setNewValue v s).fires + 1 }).fires := rfl
    _ = (setNewValue v s).fires + 1 := hg.1
    _ = s.fires + 1 := by rw [setNewValue_fires]

theorem value_set_fires_once_witness :
    (value_set (fun s => value_set (fun t => t) 5 s) 7
        { stored := 0, isvalueChangedCallbackFiring := false,
          isValueChangedInSurvey := false, fires := 0 }).fires = 0 + 1 ∧
    (value_set (fun s => value_set (fun t => t) 5 s) 7
        { stored := 0, isvalueChangedCallbackFiring := false,
          isValueChangedInSurvey := false, fires := 0 }).isvalueChangedCallbackFiring
      = false :=
  value_set_fires_once (fun s => value_set (fun t => t) 5 s) 7
    { stored := 0, isvalueChangedCallbackFiring := false,
      isValueChangedInSurvey := false, fires := 0 }
    (Reenters.set 5 Reenters.nop) rfl

/-- C8: calling `generateRows` twice with no intervening mutation yields two
row-model sequences of equal length — both equal to `rowCount` — whose row
values agree position by position; yet every stamp of the second call is
strictly larger than every stamp of the first, because `rowCounter` advances
at each row creation and is never reset. -/
theorem generateRows_twice (s : MState) :
    (generateRows s).1.length = s.rowCountValue.toNat ∧
    (generateRows (generateRows s).2).1.length = (generateRows s).1.length ∧
    (generateRows s).1.map RowModel.value
      = (generateRows (generateRows s).2).1.map RowModel.value ∧
    ∀ r1 ∈ (generateRows s).1, ∀ r2 ∈ (generateRows (generateRows s).2).1,
      r1.index < r2.index := by
  rcases eq_or_ne s.rowCountValue 0 with h0 | h0
  · have hg : generateRows s = ([], s) := by
      unfold generateRows; rw [if_pos h0]
    simp [hg, h0]
  · have h1 := generateRows_eq s h0
    have hR1 : (generateRows s).1
        = (List.range s.rowCountValue.toNat).map (fun i =>
            { index := s.rowCounter + i,
              value := getRowValueByIndex
                (createNewValue s.value s.rowCountValue) (i : Int) }) := by
      rw [h1]
    have hS1 : (generateRows s).2
        = { s with
              rowCounter := s.rowCounter + s.rowCountValue.toNat,
              value := match s.value with
                       | some _ => some (createNewValue s.value s.rowCountValue)
                       | none => none } := by
      rw [h1]
    have hrc1 : ((generateRows s).2).rowCountValue = s.rowCountValue := by
      rw [hS1]
    have h2 := generateRows_eq ((generateRows s).2) (by rw [hrc1]; exact h0)
    have hR2 : (generateRows (generateRows s).2).1
        = (List.range s.rowCountValue.toNat).map (fun i =>
            { index := s.rowCounter + s.rowCountValue.toNat + i,
              value := getRowValueByIndex
                (createNewValue ((generateRows s).2).value s.rowCountValue)
                (i : Int) }) := by
      rw [h2, hrc1, hS1]
    refine ⟨?_, ?_, ?_, ?_⟩
    · rw [hR1]; simp
    · rw [hR2, hR1]; simp
    · rcases lt_or_le s.rowCountValue 0 with hneg | hpos
      · -- rowCount negative: both calls build their rows over an empty range.
        have hn : s.rowCountValue.toNat = 0 := by omega
        rw [hR1, hR2, hn]
        rfl
      · have hpos1 : 1 ≤ s.rowCountValue := by omega
        have hval : createNewValue ((generateRows s).2).value s.rowCountValue
            = createNewValue s.value s.rowCountValue := by
          rcases hv : s.value with - | cur
          · rw [hS1]; simp [hv]
          · rw [hS1]; simp only [hv]
            exact createNewValue_exact _ _ (by
              rw [← hv]; exact createNewValue_length s.value _ hpos1)
        rw [hR1, hR2, hval]
        simp [List.map_map, Function.comp]
    · intro r1 hr1 r2 hr2
      rw [hR1] at hr1
      rw [hR2] at hr2
      simp only [List.mem_map, List.mem_range] at hr1 hr2
      obtain ⟨i, hi, rfl⟩ := hr1
      obtain ⟨j, hj, rfl⟩ := hr2
      simp only []
      omega

theorem generateRows_twice_witness :
    (generateRows { rowCounter := 0, rowCountValue := 2, value := none }).1.length = 2 ∧
    (generateRows { rowCounter := 0, rowCountValue := 2, value := none }).1.map RowModel.value
      = (generateRows
          (generateRows { rowCounter := 0, rowCountValue := 2, value := none }).2).1.map
            RowModel.value ∧
    ({ index := 0, value := some [] } : RowModel).index
      < ({ index := 3, value := some [] } : RowModel).index := by
  have h := generateRows_twice { rowCounter := 0, rowCountValue := 2, value := none }
  exact ⟨h.1, h.2.2.1,
    h.2.2.2 { index := 0, value := some [] } (by decide)
      { index := 3, value := some [] } (by decide)⟩
